import Mathlib

/-!
Verification of the GitInsights frontend data-orchestration layer.

This file shallowly embeds the user-data orchestrator of
`src/frontend/src/context/UserContext.jsx` together with the API client
wrapper (`fetchApi`) and the localStorage-backed recent-searches store.

Modeling conventions:
* React state is a record `UserState`; every `setX(...)` call in the source
  is one state transition, and the list of states after each such call is
  the operation's observable `trace` (per-update observability).
* The outcome of one backend call is an `ApiOutcome`: the API client
  returned data (`ok`), returned `null` (`absent`), or the call raised
  (`exn`), matching the `data / null / catch` triage in each fetch helper.
* `async`/`await` sequencing is modeled as sequential composition in the
  order the source awaits (the `Promise.allSettled` fan-out is modeled in
  its listed order; every interleaving of the six independent fetches
  performs the same per-resource writes).
* Network effects are modeled as the list of API-client invocations the
  operation issues (`calls`).
-/

namespace GitInsights

/-- The seven per-resource loading flags of `loadingStates`
(`UserContext.jsx` lines 23-31). -/
structure LoadingStates where
  profile : Bool
  repositories : Bool
  languages : Bool
  activity : Bool
  insights : Bool
  trends : Bool
  contributions : Bool
deriving DecidableEq, Repr

/-- The keys accepted by `updateLoadingState`. -/
inductive ResourceKey where
  | profile
  | repositories
  | languages
  | activity
  | insights
  | trends
  | contributions
deriving DecidableEq, Repr

/-- `{ ...prevStates, [key]: value }` in `updateLoadingState`. -/
def LoadingStates.set (ls : LoadingStates) (k : ResourceKey) (v : Bool) : LoadingStates :=
  match k with
  | .profile => { ls with profile := v }
  | .repositories => { ls with repositories := v }
  | .languages => { ls with languages := v }
  | .activity => { ls with activity := v }
  | .insights => { ls with insights := v }
  | .trends => { ls with trends := v }
  | .contributions => { ls with contributions := v }

/-- `Object.values(updatedStates).some(Boolean)` (`UserContext.jsx` line 64). -/
def anyLoading (ls : LoadingStates) : Bool :=
  ls.profile || ls.repositories || ls.languages || ls.activity ||
    ls.insights || ls.trends || ls.contributions

/-- The state held by `UserProvider`: the seven per-user entities, the
aggregate and per-resource loading flags, the error slot, the recent
searches, and the `isLoadingRef` re-entrancy guard. Entity payloads are
opaque (`String` / `List String`); the orchestrator never inspects them. -/
structure UserState where
  username : String
  userData : Option String
  repositories : List String
  languages : Option String
  activityData : Option String
  repoInsights : Option String
  languageTrends : Option String
  contributionData : Option String
  isLoading : Bool
  loadingStates : LoadingStates
  error : Option String
  recentSearches : List String
  isLoadingRef : Bool
deriving DecidableEq, Repr

/-- The initial provider state (`useState` initializers, lines 12-37,
with an empty recent-search history). -/
def initState : UserState :=
  { username := ""
    userData := none
    repositories := []
    languages := none
    activityData := none
    repoInsights := none
    languageTrends := none
    contributionData := none
    isLoading := false
    loadingStates := ⟨false, false, false, false, false, false, false⟩
    error := none
    recentSearches := []
    isLoadingRef := false }

/-- Outcome of one API-client call as seen by a fetch helper:
data (`ok`), `null` (`absent`), or a raised exception (`exn`). -/
inductive ApiOutcome (α : Type) where
  | ok (data : α)
  | absent
  | exn (msg : String)
deriving DecidableEq, Repr

/-- One invocation of the API client (`githubInsightsApi` methods). -/
inductive ApiCall where
  | getUserProfile (username : String)
  | getUserRepositories (username : String)
  | getUserLanguages (username : String)
  | getActivityTimeline (username : String) (days : Nat)
  | getRepositoryInsights (username : String)
  | getLanguageTrends (username : String)
  | getContributionHeatmap (username : String) (days : Nat)
deriving DecidableEq, Repr

/-- Result of running one orchestrator operation: the observable states in
order (one per `setX` call), the final state, the value the `async`
function returns, and the API-client calls it issued. -/
structure FetchResult (α : Type) where
  trace : List UserState
  final : UserState
  ret : α
  calls : List ApiCall
deriving Repr

/-- `updateLoadingState` (lines 60-68): set one per-resource flag and
recompute the aggregate flag as the OR of all seven. -/
def updateLoadingState (s : UserState) (k : ResourceKey) (v : Bool) : UserState :=
  let ls := s.loadingStates.set k v
  { s with loadingStates := ls, isLoading := anyLoading ls }

/-- `clearUserData` (lines 73-82). -/
def clearUserData (s : UserState) : UserState :=
  { s with
    userData := none
    repositories := []
    languages := none
    activityData := none
    repoInsights := none
    languageTrends := none
    contributionData := none
    error := none }

/-- `fetchUserProfile` (lines 87-106): set the profile flag, call the API,
store data or set the error slot (absent result or exception), and clear
the profile flag in the `finally` block. -/
def fetchUserProfile (s : UserState) (username : String)
    (out : ApiOutcome String) : FetchResult (Option String) :=
  let s1 := updateLoadingState s .profile true
  match out with
  | .ok data =>
      let s2 := { s1 with userData := some data }
      let s3 := updateLoadingState s2 .profile false
      ⟨[s1, s2, s3], s3, some data, [.getUserProfile username]⟩
  | .absent =>
      let s2 := { s1 with error := some ("User " ++ username ++ " not found") }
      let s3 := updateLoadingState s2 .profile false
      ⟨[s1, s2, s3], s3, none, [.getUserProfile username]⟩
  | .exn msg =>
      let m := if msg = "" then "Unknown error" else msg
      let s2 := { s1 with error := some ("Failed to load user profile: " ++ m) }
      let s3 := updateLoadingState s2 .profile false
      ⟨[s1, s2, s3], s3, none, [.getUserProfile username]⟩

/-- `fetchRepositories` (lines 111-130): absent result and exception both
reset the repositories entity to `[]` and return `[]`; the error slot is
never written; the flag is cleared in the `finally` block. -/
def fetchRepositories (s : UserState) (username : String)
    (out : ApiOutcome (List String)) : FetchResult (List String) :=
  let s1 := updateLoadingState s .repositories true
  match out with
  | .ok data =>
      let s2 := { s1 with repositories := data }
      let s3 := updateLoadingState s2 .repositories false
      ⟨[s1, s2, s3], s3, data, [.getUserRepositories username]⟩
  | .absent =>
      let s2 := { s1 with repositories := [] }
      let s3 := updateLoadingState s2 .repositories false
      ⟨[s1, s2, s3], s3, [], [.getUserRepositories username]⟩
  | .exn _ =>
      let s2 := { s1 with repositories := [] }
      let s3 := updateLoadingState s2 .repositories false
      ⟨[s1, s2, s3], s3, [], [.getUserRepositories username]⟩

/-- `fetchLanguages` (lines 135-154). -/
def fetchLanguages (s : UserState) (username : String)
    (out : ApiOutcome String) : FetchResult (Option String) :=
  let s1 := updateLoadingState s .languages true
  match out with
  | .ok data =>
      let s2 := { s1 with languages := some data }
      let s3 := updateLoadingState s2 .languages false
      ⟨[s1, s2, s3], s3, some data, [.getUserLanguages username]⟩
  | .absent =>
      let s2 := { s1 with languages := none }
      let s3 := updateLoadingState s2 .languages false
      ⟨[s1, s2, s3], s3, none, [.getUserLanguages username]⟩
  | .exn _ =>
      let s2 := { s1 with languages := none }
      let s3 := updateLoadingState s2 .languages false
      ⟨[s1, s2, s3], s3, none, [.getUserLanguages username]⟩

/-- `fetchActivityData` (lines 159-178). -/
def fetchActivityData (s : UserState) (username : String) (days : Nat)
    (out : ApiOutcome String) : FetchResult (Option String) :=
  let s1 := updateLoadingState s .activity true
  match out with
  | .ok data =>
      let s2 := { s1 with activityData := some data }
      let s3 := updateLoadingState s2 .activity false
      ⟨[s1, s2, s3], s3, some data, [.getActivityTimeline username days]⟩
  | .absent =>
      let s2 := { s1 with activityData := none }
      let s3 := updateLoadingState s2 .activity false
      ⟨[s1, s2, s3], s3, none, [.getActivityTimeline username days]⟩
  | .exn _ =>
      let s2 := { s1 with activityData := none }
      let s3 := updateLoadingState s2 .activity false
      ⟨[s1, s2, s3], s3, none, [.getActivityTimeline username days]⟩

/-- `fetchRepoInsights` (lines 183-202). -/
def fetchRepoInsights (s : UserState) (username : String)
    (out : ApiOutcome String) : FetchResult (Option String) :=
  let s1 := updateLoadingState s .insights true
  match out with
  | .ok data =>
      let s2 := { s1 with repoInsights := some data }
      let s3 := updateLoadingState s2 .insights false
      ⟨[s1, s2, s3], s3, some data, [.getRepositoryInsights username]⟩
  | .absent =>
      let s2 := { s1 with repoInsights := none }
      let s3 := updateLoadingState s2 .insights false
      ⟨[s1, s2, s3], s3, none, [.getRepositoryInsights username]⟩
  | .exn _ =>
      let s2 := { s1 with repoInsights := none }
      let s3 := updateLoadingState s2 .insights false
      ⟨[s1, s2, s3], s3, none, [.getRepositoryInsights username]⟩

/-- `fetchLanguageTrends` (lines 207-226). -/
def fetchLanguageTrends (s : UserState) (username : String)
    (out : ApiOutcome String) : FetchResult (Option String) :=
  let s1 := updateLoadingState s .trends true
  match out with
  | .ok data =>
      let s2 := { s1 with languageTrends := some data }
      let s3 := updateLoadingState s2 .trends false
      ⟨[s1, s2, s3], s3, some data, [.getLanguageTrends username]⟩
  | .absent =>
      let s2 := { s1 with languageTrends := none }
      let s3 := updateLoadingState s2 .trends false
      ⟨[s1, s2, s3], s3, none, [.getLanguageTrends username]⟩
  | .exn _ =>
      let s2 := { s1 with languageTrends := none }
      let s3 := updateLoadingState s2 .trends false
      ⟨[s1, s2, s3], s3, none, [.getLanguageTrends username]⟩

/-- `fetchContributionData` (lines 231-250). -/
def fetchContributionData (s : UserState) (username : String) (days : Nat)
    (out : ApiOutcome String) : FetchResult (Option String) :=
  let s1 := updateLoadingState s .contributions true
  match out with
  | .ok data =>
      let s2 := { s1 with contributionData := some data }
      let s3 := updateLoadingState s2 .contributions false
      ⟨[s1, s2, s3], s3, some data, [.getContributionHeatmap username days]⟩
  | .absent =>
      let s2 := { s1 with contributionData := none }
      let s3 := updateLoadingState s2 .contributions false
      ⟨[s1, s2, s3], s3, none, [.getContributionHeatmap username days]⟩
  | .exn _ =>
      let s2 := { s1 with contributionData := none }
      let s3 := updateLoadingState s2 .contributions false
      ⟨[s1, s2, s3], s3, none, [.getContributionHeatmap username days]⟩

/-- The recent-searches update (lines 277-280):
`[newUsername, ...prev.filter(name => name !== newUsername)].slice(0, 5)`. -/
def addRecentSearch (prev : List String) (u : String) : List String :=
  (u :: prev.filter (fun name => name ≠ u)).take 5

/-- The per-resource outcomes one `loadUserData` run encounters. -/
structure ApiOutcomes where
  profile : ApiOutcome String
  repositories : ApiOutcome (List String)
  languages : ApiOutcome String
  activity : ApiOutcome String
  insights : ApiOutcome String
  trends : ApiOutcome String
  contributions : ApiOutcome String
deriving DecidableEq, Repr

/-- `loadUserData` (lines 255-314). The `!newUsername` guard is the
JavaScript falsiness test, which for a string holds exactly when it is
`""`. The guard check, data clearing, username and recent-searches
updates, the direct `setIsLoading(true)` / `setError(null)`, the profile
fetch, the not-found early return, the six fan-out fetches, and the
`finally` cleanup are translated in source order. -/
def loadUserData (s : UserState) (newUsername : String)
    (outs : ApiOutcomes) : FetchResult Unit :=
  if newUsername = "" then
    let s1 := { s with error := some "Username is required" }
    ⟨[s1], s1, (), []⟩
  else if s.isLoadingRef then
    ⟨[], s, (), []⟩
  else
    let s1 := { s with isLoadingRef := true }
    let s2 := clearUserData s1
    let s3 := { s2 with username := newUsername }
    let s4 := { s3 with recentSearches := addRecentSearch s3.recentSearches newUsername }
    let s5 := { s4 with isLoading := true }
    let s6 := { s5 with error := none }
    let pr := fetchUserProfile s6 newUsername outs.profile
    match pr.ret with
    | none =>
        let s7 := { pr.final with
          error := some ("User " ++ newUsername ++ " not found or API error occurred") }
        let s8 := { s7 with isLoadingRef := false }
        let s9 := { s8 with isLoading := false }
        let s10 := { s9 with isLoadingRef := false }
        ⟨[s1, s2, s3, s4, s5, s6] ++ pr.trace ++ [s7, s8, s9, s10], s10, (), pr.calls⟩
    | some _ =>
        let r1 := fetchRepositories pr.final newUsername outs.repositories
        let r2 := fetchLanguages r1.final newUsername outs.languages
        let r3 := fetchActivityData r2.final newUsername 30 outs.activity
        let r4 := fetchRepoInsights r3.final newUsername outs.insights
        let r5 := fetchLanguageTrends r4.final newUsername outs.trends
        let r6 := fetchContributionData r5.final newUsername 365 outs.contributions
        let s7 := { r6.final with isLoading := false }
        let s8 := { s7 with isLoadingRef := false }
        ⟨[s1, s2, s3, s4, s5, s6] ++ pr.trace ++ r1.trace ++ r2.trace ++
            r3.trace ++ r4.trace ++ r5.trace ++ r6.trace ++ [s7, s8],
          s8, (),
          pr.calls ++ r1.calls ++ r2.calls ++ r3.calls ++
            r4.calls ++ r5.calls ++ r6.calls⟩

/-! ## API client wrapper (`src/api/githubInsightsApi.js`, `fetchApi`) -/

/-- A parsed JSON body as the API client sees it: an optional structured
`detail` field plus an opaque payload. -/
structure ApiJson where
  detail : Option String
  payload : String
deriving DecidableEq, Repr

/-- Outcome of the underlying `fetch` call: a network-level failure, or a
response with its `ok` flag, status code, and JSON body (`none` when
`response.json()` rejects). -/
inductive HttpOutcome where
  | networkError (msg : String)
  | response (ok : Bool) (status : Nat) (body : Option ApiJson)
deriving DecidableEq, Repr

/-- What `fetchApi` produces: its return value (`null` is `none`), and the
error message it derives and logs on a non-success status (`none` when no
such message is derived). -/
structure FetchApiResult where
  result : Option ApiJson
  errorMessage : Option String
deriving DecidableEq, Repr

/-- `fetchApi` (API client lines 16-44): on a non-ok response, read the
error body (falling back to `{}` on parse failure), derive
`errorData.detail || "API Error: " + status` — the `||` is JavaScript
falsiness, so an absent detail field AND a present-but-empty detail
string both fall back to the generic message — log it, and return
`null`; on a network failure (or a successful response whose body fails
to parse, which rejects inside the `try`), return `null`; on success,
return the parsed body unmodified. The function is total: it never
raises past its boundary. -/
def fetchApi (endpoint : String) (r : HttpOutcome) : FetchApiResult :=
  let _ := endpoint
  match r with
  | .networkError _ => ⟨none, none⟩
  | .response ok status body =>
      if ok then
        match body with
        | some j => ⟨some j, none⟩
        | none => ⟨none, none⟩
      else
        let errorData := body.getD ⟨none, ""⟩
        let errorMessage :=
          match errorData.detail with
          | some d => if d = "" then "API Error: " ++ toString status else d
          | none => "API Error: " ++ toString status
        ⟨none, some errorMessage⟩

/-! ## Recent-searches persistence (`UserContext.jsx` lines 40-55) -/

/-- The `useState` initializer for `recentSearches` (lines 40-48):
`localStorage.getItem` yields `none` when the key is absent; a falsy
(empty) saved string skips parsing; `JSON.parse` is modeled by the
`parse` argument, `none` meaning it throws, which the `catch` turns into
`[]`. -/
def initRecentSearches (saved : Option String)
    (parse : String → Option (List String)) : List String :=
  match saved with
  | none => []
  | some s => if s = "" then [] else (parse s).getD []

/-- `JSON.stringify` on a list of usernames. -/
def serializeSearches (l : List String) : String :=
  "[" ++ String.intercalate "," (l.map (fun s => "\x22" ++ s ++ "\x22")) ++ "]"

/-- The persistence effect of the `useEffect` at lines 51-55: a write of
the serialized list under the `recentSearches` key when the list is
non-empty, and no write otherwise. -/
def persistRecentSearches (l : List String) : Option (String × String) :=
  if l.length > 0 then some ("recentSearches", serializeSearches l) else none

/-! ## Helper lemmas -/

/-- Value a list-valued secondary fetch stores and returns: the data on
success, `[]` on an absent result or an exception. -/
def secondaryList : ApiOutcome (List String) → List String
  | .ok d => d
  | .absent => []
  | .exn _ => []

/-- Value an option-valued secondary fetch stores: the data on success,
`none` on an absent result or an exception. -/
def secondaryOpt : ApiOutcome String → Option String
  | .ok d => some d
  | .absent => none
  | .exn _ => none

/-- The aggregate/per-resource consistency invariant of claim C1. -/
def loadingInvariant (s : UserState) : Prop :=
  s.isLoading = anyLoading s.loadingStates

instance (s : UserState) : Decidable (loadingInvariant s) := by
  unfold loadingInvariant; infer_instance

theorem loadingInvariant_updateLoadingState (s : UserState) (k : ResourceKey) (v : Bool) :
    loadingInvariant (updateLoadingState s k v) := rfl

theorem fetchUserProfile_final (s : UserState) (u : String) (out : ApiOutcome String) :
    (fetchUserProfile s u out).final =
      { s with
        userData := match out with | .ok d => some d | _ => s.userData
        error := match out with
          | .ok _ => s.error
          | .absent => some ("User " ++ u ++ " not found")
          | .exn msg => some ("Failed to load user profile: " ++
              (if msg = "" then "Unknown error" else msg))
        loadingStates := { s.loadingStates with profile := false }
        isLoading := anyLoading { s.loadingStates with profile := false } } := by
  cases out <;> rfl

theorem fetchRepositories_final (s : UserState) (u : String) (out : ApiOutcome (List String)) :
    (fetchRepositories s u out).final =
      { s with
        repositories := secondaryList out
        loadingStates := { s.loadingStates with repositories := false }
        isLoading := anyLoading { s.loadingStates with repositories := false } } := by
  cases out <;> rfl

theorem fetchLanguages_final (s : UserState) (u : String) (out : ApiOutcome String) :
    (fetchLanguages s u out).final =
      { s with
        languages := secondaryOpt out
        loadingStates := { s.loadingStates with languages := false }
        isLoading := anyLoading { s.loadingStates with languages := false } } := by
  cases out <;> rfl

theorem fetchActivityData_final (s : UserState) (u : String) (days : Nat)
    (out : ApiOutcome String) :
    (fetchActivityData s u days out).final =
      { s with
        activityData := secondaryOpt out
        loadingStates := { s.loadingStates with activity := false }
        isLoading := anyLoading { s.loadingStates with activity := false } } := by
  cases out <;> rfl

theorem fetchRepoInsights_final (s : UserState) (u : String) (out : ApiOutcome String) :
    (fetchRepoInsights s u out).final =
      { s with
        repoInsights := secondaryOpt out
        loadingStates := { s.loadingStates with insights := false }
        isLoading := anyLoading { s.loadingStates with insights := false } } := by
  cases out <;> rfl

theorem fetchLanguageTrends_final (s : UserState) (u : String) (out : ApiOutcome String) :
    (fetchLanguageTrends s u out).final =
      { s with
        languageTrends := secondaryOpt out
        loadingStates := { s.loadingStates with trends := false }
        isLoading := anyLoading { s.loadingStates with trends := false } } := by
  cases out <;> rfl

theorem fetchContributionData_final (s : UserState) (u : String) (days : Nat)
    (out : ApiOutcome String) :
    (fetchContributionData s u days out).final =
      { s with
        contributionData := secondaryOpt out
        loadingStates := { s.loadingStates with contributions := false }
        isLoading := anyLoading { s.loadingStates with contributions := false } } := by
  cases out <;> rfl


theorem fetchUserProfile_ret (s : UserState) (u : String) (out : ApiOutcome String) :
    (fetchUserProfile s u out).ret =
      (match out with | .ok d => some d | .absent => none | .exn _ => none) := by
  cases out <;> rfl

theorem fetchUserProfile_calls (s : UserState) (u : String) (out : ApiOutcome String) :
    (fetchUserProfile s u out).calls = [.getUserProfile u] := by
  cases out <;> rfl

theorem fetchRepositories_calls (s : UserState) (u : String) (out : ApiOutcome (List String)) :
    (fetchRepositories s u out).calls = [.getUserRepositories u] := by
  cases out <;> rfl

theorem fetchLanguages_calls (s : UserState) (u : String) (out : ApiOutcome String) :
    (fetchLanguages s u out).calls = [.getUserLanguages u] := by
  cases out <;> rfl

theorem fetchActivityData_calls (s : UserState) (u : String) (days : Nat) (out : ApiOutcome String) :
    (fetchActivityData s u days out).calls = [.getActivityTimeline u days] := by
  cases out <;> rfl

theorem fetchRepoInsights_calls (s : UserState) (u : String) (out : ApiOutcome String) :
    (fetchRepoInsights s u out).calls = [.getRepositoryInsights u] := by
  cases out <;> rfl

theorem fetchLanguageTrends_calls (s : UserState) (u : String) (out : ApiOutcome String) :
    (fetchLanguageTrends s u out).calls = [.getLanguageTrends u] := by
  cases out <;> rfl

theorem fetchContributionData_calls (s : UserState) (u : String) (days : Nat) (out : ApiOutcome String) :
    (fetchContributionData s u days out).calls = [.getContributionHeatmap u days] := by
  cases out <;> rfl

theorem loadUserData_final_ok (s : UserState) (u : String) (outs : ApiOutcomes) (p : String)
    (h1 : u ≠ "") (h2 : s.isLoadingRef = false) (h3 : outs.profile = .ok p) :
    (loadUserData s u outs).final =
      { username := u
        userData := some p
        repositories := secondaryList outs.repositories
        languages := secondaryOpt outs.languages
        activityData := secondaryOpt outs.activity
        repoInsights := secondaryOpt outs.insights
        languageTrends := secondaryOpt outs.trends
        contributionData := secondaryOpt outs.contributions
        isLoading := false
        loadingStates := ⟨false, false, false, false, false, false, false⟩
        error := none
        recentSearches := addRecentSearch s.recentSearches u
        isLoadingRef := false } := by
  unfold loadUserData
  rw [if_neg h1]
  rw [h2]
  simp only [Bool.false_eq_true, if_false]
  simp only [fetchUserProfile_ret]
  rw [h3]
  simp only [fetchRepositories_final, fetchLanguages_final, fetchActivityData_final,
    fetchRepoInsights_final, fetchLanguageTrends_final, fetchContributionData_final,
    fetchUserProfile_final, clearUserData]

theorem loadUserData_calls_ok (s : UserState) (u : String) (outs : ApiOutcomes) (p : String)
    (h1 : u ≠ "") (h2 : s.isLoadingRef = false) (h3 : outs.profile = .ok p) :
    (loadUserData s u outs).calls =
      [.getUserProfile u, .getUserRepositories u, .getUserLanguages u,
        .getActivityTimeline u 30, .getRepositoryInsights u, .getLanguageTrends u,
        .getContributionHeatmap u 365] := by
  unfold loadUserData
  rw [if_neg h1, h2]
  simp only [Bool.false_eq_true, if_false, fetchUserProfile_ret]
  rw [h3]
  simp only [fetchUserProfile_calls, fetchRepositories_calls, fetchLanguages_calls,
    fetchActivityData_calls, fetchRepoInsights_calls, fetchLanguageTrends_calls,
    fetchContributionData_calls]
  rfl

theorem loadUserData_final_absent (s : UserState) (u : String) (outs : ApiOutcomes)
    (h1 : u ≠ "") (h2 : s.isLoadingRef = false) (h3 : outs.profile = .absent) :
    (loadUserData s u outs).final =
      { username := u
        userData := none
        repositories := []
        languages := none
        activityData := none
        repoInsights := none
        languageTrends := none
        contributionData := none
        isLoading := false
        loadingStates := { s.loadingStates with profile := false }
        error := some ("User " ++ u ++ " not found or API error occurred")
        recentSearches := addRecentSearch s.recentSearches u
        isLoadingRef := false } := by
  unfold loadUserData
  rw [if_neg h1, h2]
  simp only [Bool.false_eq_true, if_false, fetchUserProfile_ret]
  rw [h3]
  simp only [fetchUserProfile_final, clearUserData]

theorem loadUserData_calls_absent (s : UserState) (u : String) (outs : ApiOutcomes)
    (h1 : u ≠ "") (h2 : s.isLoadingRef = false) (h3 : outs.profile = .absent) :
    (loadUserData s u outs).calls = [.getUserProfile u] := by
  unfold loadUserData
  rw [if_neg h1, h2]
  simp only [Bool.false_eq_true, if_false, fetchUserProfile_ret]
  rw [h3]
  simp only [fetchUserProfile_calls]

theorem loadUserData_final_exn (s : UserState) (u : String) (outs : ApiOutcomes) (m : String)
    (h1 : u ≠ "") (h2 : s.isLoadingRef = false) (h3 : outs.profile = .exn m) :
    (loadUserData s u outs).final =
      { username := u
        userData := none
        repositories := []
        languages := none
        activityData := none
        repoInsights := none
        languageTrends := none
        contributionData := none
        isLoading := false
        loadingStates := { s.loadingStates with profile := false }
        error := some ("User " ++ u ++ " not found or API error occurred")
        recentSearches := addRecentSearch s.recentSearches u
        isLoadingRef := false } := by
  unfold loadUserData
  rw [if_neg h1, h2]
  simp only [Bool.false_eq_true, if_false, fetchUserProfile_ret]
  rw [h3]
  simp only [fetchUserProfile_final, clearUserData]

/-! ## Concrete fixtures used by witnesses and counterexamples -/

/-- A run in which every backend call succeeds. -/
def okOutcomes : ApiOutcomes :=
  ⟨.ok "profile", .ok ["repoA"], .ok "langs", .ok "activity",
    .ok "insights", .ok "trends", .ok "contribs"⟩

/-- A run in which the profile call returns null and every secondary call
would succeed. -/
def notFoundOutcomes : ApiOutcomes :=
  ⟨.absent, .ok ["repoA"], .ok "langs", .ok "activity",
    .ok "insights", .ok "trends", .ok "contribs"⟩

/-! ## Claims -/

/-- C7: the API client's fetch wrapper never raises past its boundary
(it is a total function into a result record): on a network-level
failure it returns null; on a non-success HTTP status it returns null
after deriving the structured detail message under JavaScript
falsiness, falling back to "API Error: {status}" when the detail field
is absent, present but the empty string, or the error body fails to
parse; on success it returns the parsed JSON body unmodified. -/
theorem C7_fetchApi_error_convention (e : String) :
    (∀ m, fetchApi e (.networkError m) = ⟨none, none⟩) ∧
    (∀ status d pl, fetchApi e (.response false status (some ⟨some d, pl⟩)) =
      ⟨none, some (if d = "" then "API Error: " ++ toString status else d)⟩) ∧
    (∀ status pl, fetchApi e (.response false status (some ⟨some "", pl⟩)) =
      ⟨none, some ("API Error: " ++ toString status)⟩) ∧
    (∀ status pl, fetchApi e (.response false status (some ⟨none, pl⟩)) =
      ⟨none, some ("API Error: " ++ toString status)⟩) ∧
    (∀ status, fetchApi e (.response false status none) =
      ⟨none, some ("API Error: " ++ toString status)⟩) ∧
    (∀ status j, fetchApi e (.response true status (some j)) = ⟨some j, none⟩) :=
  ⟨fun _ => rfl, fun _ _ _ => rfl, fun _ _ => rfl, fun _ _ => rfl, fun _ => rfl,
    fun _ _ => rfl⟩

/-- C8: the history store's startup read yields the empty list when the
durable storage key is absent or its value fails to parse, and a
serialized write under the recentSearches key occurs exactly when the
resulting list is non-empty. -/
theorem C8_history_store (saved : String) (parse : String → Option (List String))
    (l : List String) (hs : parse saved = none) (hl : l ≠ []) :
    initRecentSearches none parse = [] ∧
    initRecentSearches (some saved) parse = [] ∧
    persistRecentSearches l = some ("recentSearches", serializeSearches l) ∧
    persistRecentSearches [] = none := by
  refine ⟨rfl, ?_, ?_, rfl⟩
  · unfold initRecentSearches
    by_cases h : saved = "" <;> simp [h, hs]
  · unfold persistRecentSearches
    simp [List.length_pos, hl]

/-- Witness for C8 at a concrete corrupt value and non-empty list. -/
theorem C8_history_store_witness :
    initRecentSearches none (fun _ => none) = [] ∧
    initRecentSearches (some "garbage") (fun _ => none) = [] ∧
    persistRecentSearches ["alice"] =
      some ("recentSearches", serializeSearches ["alice"]) ∧
    persistRecentSearches [] = none :=
  C8_history_store "garbage" (fun _ => none) ["alice"] rfl (by decide)

/-- C9: a standalone fetchUserProfile whose API call returns null or
raises leaves the stored profile entity and every other entity, flag,
and list unchanged; only the error slot is written and the profile
loading flag is toggled (ending false). -/
theorem C9_fetchUserProfile_frame (s : UserState) (u m : String) :
    ((fetchUserProfile s u .absent).final.userData = s.userData ∧
     (fetchUserProfile s u .absent).final.repositories = s.repositories ∧
     (fetchUserProfile s u .absent).final.languages = s.languages ∧
     (fetchUserProfile s u .absent).final.activityData = s.activityData ∧
     (fetchUserProfile s u .absent).final.repoInsights = s.repoInsights ∧
     (fetchUserProfile s u .absent).final.languageTrends = s.languageTrends ∧
     (fetchUserProfile s u .absent).final.contributionData = s.contributionData ∧
     (fetchUserProfile s u .absent).final.username = s.username ∧
     (fetchUserProfile s u .absent).final.recentSearches = s.recentSearches ∧
     (fetchUserProfile s u .absent).final.isLoadingRef = s.isLoadingRef ∧
     (fetchUserProfile s u .absent).final.loadingStates =
       { s.loadingStates with profile := false } ∧
     (fetchUserProfile s u .absent).final.error =
       some ("User " ++ u ++ " not found")) ∧
    ((fetchUserProfile s u (.exn m)).final.userData = s.userData ∧
     (fetchUserProfile s u (.exn m)).final.repositories = s.repositories ∧
     (fetchUserProfile s u (.exn m)).final.languages = s.languages ∧
     (fetchUserProfile s u (.exn m)).final.activityData = s.activityData ∧
     (fetchUserProfile s u (.exn m)).final.repoInsights = s.repoInsights ∧
     (fetchUserProfile s u (.exn m)).final.languageTrends = s.languageTrends ∧
     (fetchUserProfile s u (.exn m)).final.contributionData = s.contributionData ∧
     (fetchUserProfile s u (.exn m)).final.username = s.username ∧
     (fetchUserProfile s u (.exn m)).final.recentSearches = s.recentSearches ∧
     (fetchUserProfile s u (.exn m)).final.isLoadingRef = s.isLoadingRef ∧
     (fetchUserProfile s u (.exn m)).final.loadingStates =
       { s.loadingStates with profile := false } ∧
     (fetchUserProfile s u (.exn m)).final.error =
       some ("Failed to load user profile: " ++
         (if m = "" then "Unknown error" else m))) :=
  ⟨⟨rfl, rfl, rfl, rfl, rfl, rfl, rfl, rfl, rfl, rfl, rfl, rfl⟩,
   ⟨rfl, rfl, rfl, rfl, rfl, rfl, rfl, rfl, rfl, rfl, rfl, rfl⟩⟩

/-- C10: recent-search deduplication is exact string equality, so two
usernames differing only in case occupy two distinct entries. -/
theorem C10_dedup_case_sensitive (u1 u2 : String) (h : u1 ≠ u2) :
    addRecentSearch (addRecentSearch [] u1) u2 = [u2, u1] ∧
    addRecentSearch (addRecentSearch [] "Foo") "foo" = ["foo", "Foo"] := by
  refine ⟨?_, by decide⟩
  simp [addRecentSearch, List.filter, h]

/-- Witness for C10 at the case-differing pair from the claim. -/
theorem C10_dedup_case_sensitive_witness :
    addRecentSearch (addRecentSearch [] "Foo") "foo" = ["foo", "Foo"] ∧
    addRecentSearch (addRecentSearch [] "Foo") "foo" = ["foo", "Foo"] :=
  C10_dedup_case_sensitive "Foo" "foo" (by decide)

/-- C2 counterexample: a whitespace-only username is truthy in
JavaScript, so the `!newUsername` check does not fire: loadUserData on
a single space issues API calls, records the username, and does not set
the "Username is required" error. -/
theorem C2_counterexample :
    (loadUserData initState " " okOutcomes).calls ≠ [] ∧
    (loadUserData initState " " okOutcomes).final.error ≠ some "Username is required" ∧
    (loadUserData initState " " okOutcomes).final.username = " " ∧
    (loadUserData initState " " okOutcomes).final.recentSearches ≠
      initState.recentSearches := by
  decide

/-- C2 amended: for the empty username (the only string JavaScript
treats as falsy), loadUserData sets the error slot to
"Username is required", leaves every other state component unchanged,
and performs zero API-client calls. -/
theorem C2_empty_username_guard (s : UserState) (outs : ApiOutcomes) :
    (loadUserData s "" outs).final = { s with error := some "Username is required" } ∧
    (loadUserData s "" outs).calls = [] :=
  ⟨rfl, rfl⟩

/-- C3 counterexample: the empty-username check precedes the
re-entrancy guard check, so calling loadUserData with an empty username
while the guard is set still mutates the error slot. -/
theorem C3_counterexample :
    ({ initState with isLoadingRef := true } : UserState).error = none ∧
    (loadUserData { initState with isLoadingRef := true } "" okOutcomes).final.error =
      some "Username is required" := by
  decide

/-- C3 amended: for every non-empty username, invoking loadUserData
while the re-entrancy guard flag is set is a no-op: the state is
returned unchanged, no observable update occurs, and no API-client call
is issued. -/
theorem C3_guard_reentrancy (s : UserState) (u : String) (outs : ApiOutcomes)
    (h1 : u ≠ "") (h2 : s.isLoadingRef = true) :
    (loadUserData s u outs).final = s ∧
    (loadUserData s u outs).calls = [] ∧
    (loadUserData s u outs).trace = [] := by
  unfold loadUserData
  rw [if_neg h1, h2]
  exact ⟨rfl, rfl, rfl⟩

/-- Witness for C3 at a concrete guarded state. -/
theorem C3_guard_reentrancy_witness :
    (loadUserData { initState with isLoadingRef := true } "octocat" okOutcomes).final =
      { initState with isLoadingRef := true } ∧
    (loadUserData { initState with isLoadingRef := true } "octocat" okOutcomes).calls = [] ∧
    (loadUserData { initState with isLoadingRef := true } "octocat" okOutcomes).trace = [] :=
  C3_guard_reentrancy { initState with isLoadingRef := true } "octocat" okOutcomes
    (by decide) rfl

/-- C4: when the profile fetch inside loadUserData returns null, only
the profile API call is issued (none of the six secondary fetches), the
error slot ends up holding a message naming the username, and both the
aggregate loading flag and the re-entrancy guard are false on return. -/
theorem C4_profile_not_found (s : UserState) (u : String) (outs : ApiOutcomes)
    (h1 : u ≠ "") (h2 : s.isLoadingRef = false) (h3 : outs.profile = .absent) :
    (loadUserData s u outs).calls = [.getUserProfile u] ∧
    (loadUserData s u outs).final.error =
      some ("User " ++ u ++ " not found or API error occurred") ∧
    (∃ pre post, (loadUserData s u outs).final.error = some (pre ++ u ++ post)) ∧
    (loadUserData s u outs).final.isLoading = false ∧
    (loadUserData s u outs).final.isLoadingRef = false := by
  rw [loadUserData_calls_absent s u outs h1 h2 h3, loadUserData_final_absent s u outs h1 h2 h3]
  exact ⟨rfl, rfl, ⟨"User ", " not found or API error occurred", rfl⟩, rfl, rfl⟩

/-- Witness for C4 at a concrete not-found run. -/
theorem C4_profile_not_found_witness :
    (loadUserData initState "ghost" notFoundOutcomes).calls = [.getUserProfile "ghost"] ∧
    (loadUserData initState "ghost" notFoundOutcomes).final.error =
      some ("User " ++ "ghost" ++ " not found or API error occurred") ∧
    (∃ pre post, (loadUserData initState "ghost" notFoundOutcomes).final.error =
      some (pre ++ "ghost" ++ post)) ∧
    (loadUserData initState "ghost" notFoundOutcomes).final.isLoading = false ∧
    (loadUserData initState "ghost" notFoundOutcomes).final.isLoadingRef = false :=
  C4_profile_not_found initState "ghost" notFoundOutcomes (by decide) rfl rfl

theorem addRecentSearch_eq (prev : List String) (u : String) :
    addRecentSearch prev u = u :: (prev.filter (fun name => name ≠ u)).take 4 := rfl

theorem loadUserData_final_recentSearches (s : UserState) (u : String) (outs : ApiOutcomes)
    (h1 : u ≠ "") (h2 : s.isLoadingRef = false) :
    (loadUserData s u outs).final.recentSearches = addRecentSearch s.recentSearches u := by
  cases h : outs.profile with
  | ok p => rw [loadUserData_final_ok s u outs p h1 h2 h]
  | absent => rw [loadUserData_final_absent s u outs h1 h2 h]
  | exn m => rw [loadUserData_final_exn s u outs m h1 h2 h]

theorem addRecentSearch_count (prev : List String) (u : String) :
    (addRecentSearch prev u).count u = 1 := by
  rw [addRecentSearch_eq, List.count_cons_self]
  have h0 : ((prev.filter (fun name => name ≠ u)).take 4).count u = 0 := by
    refine List.count_eq_zero.mpr (fun hm => ?_)
    have hf := (List.take_sublist 4 (prev.filter (fun name => name ≠ u))).mem hm
    have := (List.mem_filter.mp hf).2
    simp at this
  omega

theorem addRecentSearch_tail_sublist (prev : List String) (u : String) :
    List.Sublist (addRecentSearch prev u).tail prev := by
  rw [addRecentSearch_eq]
  exact (List.take_sublist 4 _).trans (List.filter_sublist prev)

theorem addRecentSearch_full (prev : List String) (u : String)
    (hnm : u ∉ prev) (hlen : prev.length = 5) :
    addRecentSearch prev u = u :: prev.take 4 := by
  rw [addRecentSearch_eq]
  congr 1
  rw [List.filter_eq_self.mpr]
  intro a ha
  simp only [decide_eq_true_eq]
  intro hv
  exact hnm (hv ▸ ha)

/-- C6: for every starting recent-searches list of at most 5 entries and
every non-empty username (guard not set), loadUserData leaves the
recent-searches list equal to the source's update
(newUsername :: prev minus newUsername, truncated to 5): at most 5
entries, the searched username at index 0 appearing exactly once, the
remaining entries an in-order sublist of the previous list, the oldest
entry dropped when a new name is pushed onto a full list, and the
spec's two worked examples. -/
theorem C6_recent_searches (s : UserState) (u : String) (outs : ApiOutcomes)
    (h1 : u ≠ "") (h2 : s.isLoadingRef = false) (h3 : s.recentSearches.length ≤ 5) :
    (loadUserData s u outs).final.recentSearches = addRecentSearch s.recentSearches u ∧
    (addRecentSearch s.recentSearches u).length ≤ 5 ∧
    (addRecentSearch s.recentSearches u).head? = some u ∧
    (addRecentSearch s.recentSearches u).count u = 1 ∧
    List.Sublist (addRecentSearch s.recentSearches u).tail s.recentSearches ∧
    (u ∉ s.recentSearches → s.recentSearches.length = 5 →
      addRecentSearch s.recentSearches u = u :: s.recentSearches.take 4) ∧
    addRecentSearch ["b", "a"] "a" = ["a", "b"] ∧
    addRecentSearch ["e", "d", "c2", "b", "a"] "c" = ["c", "e", "d", "c2", "b"] := by
  refine ⟨loadUserData_final_recentSearches s u outs h1 h2, ?_, rfl,
    addRecentSearch_count s.recentSearches u,
    addRecentSearch_tail_sublist s.recentSearches u,
    addRecentSearch_full s.recentSearches u, by decide, by decide⟩
  unfold addRecentSearch
  simp [List.length_take]

/-- Witness for C6 at a concrete two-entry history. -/
theorem C6_recent_searches_witness :
    (loadUserData { initState with recentSearches := ["b", "a"] } "a" okOutcomes).final.recentSearches =
      addRecentSearch ["b", "a"] "a" ∧
    (addRecentSearch (["b", "a"] : List String) "a").length ≤ 5 ∧
    (addRecentSearch (["b", "a"] : List String) "a").head? = some "a" ∧
    (addRecentSearch (["b", "a"] : List String) "a").count "a" = 1 ∧
    List.Sublist (addRecentSearch (["b", "a"] : List String) "a").tail ["b", "a"] ∧
    ("a" ∉ (["b", "a"] : List String) → (["b", "a"] : List String).length = 5 →
      addRecentSearch ["b", "a"] "a" = "a" :: (["b", "a"] : List String).take 4) ∧
    addRecentSearch ["b", "a"] "a" = ["a", "b"] ∧
    addRecentSearch ["e", "d", "c2", "b", "a"] "c" = ["c", "e", "d", "c2", "b"] :=
  C6_recent_searches { initState with recentSearches := ["b", "a"] } "a" okOutcomes
    (by decide) rfl (by decide)

/-- C1 counterexample: in the run where every backend call succeeds,
the observable state right after loadUserData's direct
setIsLoading(true) (line 284) has the aggregate flag true while all
seven per-resource flags are still false, so the aggregate is not the
OR of the per-resource flags at every observable point. -/
theorem C1_counterexample :
    ¬ (∀ t ∈ (loadUserData initState "octocat" okOutcomes).trace,
        loadingInvariant t) := by
  decide

/-- C1 amended: the aggregate flag equals the OR of the seven
per-resource flags after every updateLoadingState transition and at
every observable state of each of the seven individual fetch
operations (start, entity write, completion); the equality fails only
at loadUserData's direct setIsLoading(true), which precedes the first
per-resource flag write. -/
theorem C1_loading_aggregate :
    (∀ s k v, loadingInvariant (updateLoadingState s k v)) ∧
    (∀ s u out, ∀ t ∈ (fetchUserProfile s u out).trace, loadingInvariant t) ∧
    (∀ s u out, ∀ t ∈ (fetchRepositories s u out).trace, loadingInvariant t) ∧
    (∀ s u out, ∀ t ∈ (fetchLanguages s u out).trace, loadingInvariant t) ∧
    (∀ s u d out, ∀ t ∈ (fetchActivityData s u d out).trace, loadingInvariant t) ∧
    (∀ s u out, ∀ t ∈ (fetchRepoInsights s u out).trace, loadingInvariant t) ∧
    (∀ s u out, ∀ t ∈ (fetchLanguageTrends s u out).trace, loadingInvariant t) ∧
    (∀ s u d out, ∀ t ∈ (fetchContributionData s u d out).trace, loadingInvariant t) := by
  refine ⟨fun s k v => rfl, ?_, ?_, ?_, ?_, ?_, ?_, ?_⟩ <;>
    first
      | (intro s u out t ht
         cases out <;> simp [fetchUserProfile, fetchRepositories, fetchLanguages,
           fetchRepoInsights, fetchLanguageTrends] at ht <;>
           rcases ht with rfl | rfl | rfl <;> rfl)
      | (intro s u d out t ht
         cases out <;> simp [fetchActivityData, fetchContributionData] at ht <;>
           rcases ht with rfl | rfl | rfl <;> rfl)

/-- Witness for C1's per-fetch invariant at a concrete completed fetch. -/
theorem C1_loading_aggregate_witness :
    loadingInvariant (fetchUserProfile initState "octocat" (.ok "data")).final :=
  C1_loading_aggregate.2.1 initState "octocat" (.ok "data")
    (fetchUserProfile initState "octocat" (.ok "data")).final (by decide)

/-- A run in which exactly one secondary fetch (languages) returns an
absent result and everything else succeeds. -/
def oneAbsentOutcomes : ApiOutcomes :=
  ⟨.ok "profile", .ok ["repoA"], .absent, .ok "activity",
    .ok "insights", .ok "trends", .ok "contribs"⟩

/-- C5: each secondary fetch, on an absent result or an exception, sets
its entity slot to the empty representation, returns the empty or
absent marker, clears its own loading flag on every path, and never
writes the aggregate error slot; consequently in a composite load whose
profile fetch succeeds, each resource ends up holding its fetched data
or its empty representation according to its own outcome, and the
aggregate error slot remains unset. -/
theorem C5_secondary_failure_isolation (s : UserState) (u : String) (outs : ApiOutcomes)
    (p : String) (h1 : u ≠ "") (h2 : s.isLoadingRef = false) (h3 : outs.profile = .ok p) :
    (∀ t m,
      (fetchRepositories t u .absent).final.repositories = [] ∧
      (fetchRepositories t u .absent).ret = [] ∧
      (fetchRepositories t u .absent).final.error = t.error ∧
      (fetchRepositories t u (.exn m)).final.repositories = [] ∧
      (fetchRepositories t u (.exn m)).ret = [] ∧
      (fetchRepositories t u (.exn m)).final.error = t.error) ∧
    (∀ t out, (fetchRepositories t u out).final.loadingStates.repositories = false) ∧
    (∀ t m,
      (fetchLanguages t u .absent).final.languages = none ∧
      (fetchLanguages t u .absent).ret = none ∧
      (fetchLanguages t u .absent).final.error = t.error ∧
      (fetchLanguages t u (.exn m)).final.languages = none ∧
      (fetchLanguages t u (.exn m)).ret = none ∧
      (fetchLanguages t u (.exn m)).final.error = t.error) ∧
    (∀ t out, (fetchLanguages t u out).final.loadingStates.languages = false) ∧
    (∀ t d m,
      (fetchActivityData t u d .absent).final.activityData = none ∧
      (fetchActivityData t u d .absent).ret = none ∧
      (fetchActivityData t u d .absent).final.error = t.error ∧
      (fetchActivityData t u d (.exn m)).final.activityData = none ∧
      (fetchActivityData t u d (.exn m)).ret = none ∧
      (fetchActivityData t u d (.exn m)).final.error = t.error) ∧
    (∀ t d out, (fetchActivityData t u d out).final.loadingStates.activity = false) ∧
    (∀ t m,
      (fetchRepoInsights t u .absent).final.repoInsights = none ∧
      (fetchRepoInsights t u .absent).ret = none ∧
      (fetchRepoInsights t u .absent).final.error = t.error ∧
      (fetchRepoInsights t u (.exn m)).final.repoInsights = none ∧
      (fetchRepoInsights t u (.exn m)).ret = none ∧
      (fetchRepoInsights t u (.exn m)).final.error = t.error) ∧
    (∀ t out, (fetchRepoInsights t u out).final.loadingStates.insights = false) ∧
    (∀ t m,
      (fetchLanguageTrends t u .absent).final.languageTrends = none ∧
      (fetchLanguageTrends t u .absent).ret = none ∧
      (fetchLanguageTrends t u .absent).final.error = t.error ∧
      (fetchLanguageTrends t u (.exn m)).final.languageTrends = none ∧
      (fetchLanguageTrends t u (.exn m)).ret = none ∧
      (fetchLanguageTrends t u (.exn m)).final.error = t.error) ∧
    (∀ t out, (fetchLanguageTrends t u out).final.loadingStates.trends = false) ∧
    (∀ t d m,
      (fetchContributionData t u d .absent).final.contributionData = none ∧
      (fetchContributionData t u d .absent).ret = none ∧
      (fetchContributionData t u d .absent).final.error = t.error ∧
      (fetchContributionData t u d (.exn m)).final.contributionData = none ∧
      (fetchContributionData t u d (.exn m)).ret = none ∧
      (fetchContributionData t u d (.exn m)).final.error = t.error) ∧
    (∀ t d out, (fetchContributionData t u d out).final.loadingStates.contributions = false) ∧
    ((loadUserData s u outs).final.repositories = secondaryList outs.repositories ∧
     (loadUserData s u outs).final.languages = secondaryOpt outs.languages ∧
     (loadUserData s u outs).final.activityData = secondaryOpt outs.activity ∧
     (loadUserData s u outs).final.repoInsights = secondaryOpt outs.insights ∧
     (loadUserData s u outs).final.languageTrends = secondaryOpt outs.trends ∧
     (loadUserData s u outs).final.contributionData = secondaryOpt outs.contributions ∧
     (loadUserData s u outs).final.error = none) := by
  refine ⟨fun t m => ⟨rfl, rfl, rfl, rfl, rfl, rfl⟩,
    fun t out => by cases out <;> rfl,
    fun t m => ⟨rfl, rfl, rfl, rfl, rfl, rfl⟩,
    fun t out => by cases out <;> rfl,
    fun t d m => ⟨rfl, rfl, rfl, rfl, rfl, rfl⟩,
    fun t d out => by cases out <;> rfl,
    fun t m => ⟨rfl, rfl, rfl, rfl, rfl, rfl⟩,
    fun t out => by cases out <;> rfl,
    fun t m => ⟨rfl, rfl, rfl, rfl, rfl, rfl⟩,
    fun t out => by cases out <;> rfl,
    fun t d m => ⟨rfl, rfl, rfl, rfl, rfl, rfl⟩,
    fun t d out => by cases out <;> rfl, ?_⟩
  rw [loadUserData_final_ok s u outs p h1 h2 h3]
  exact ⟨rfl, rfl, rfl, rfl, rfl, rfl, rfl⟩

/-- Witness for C5: a run where exactly the languages fetch returns an
absent result; that resource is empty, the other five hold their data,
and the error slot is unset; the per-fetch facts at a concrete state. -/
theorem C5_secondary_failure_isolation_witness :
    ((fetchRepositories initState "octocat" .absent).final.repositories = [] ∧
     (fetchRepositories initState "octocat" .absent).ret = [] ∧
     (fetchRepositories initState "octocat" .absent).final.error = initState.error ∧
     (fetchRepositories initState "octocat" (.exn "boom")).final.repositories = [] ∧
     (fetchRepositories initState "octocat" (.exn "boom")).ret = [] ∧
     (fetchRepositories initState "octocat" (.exn "boom")).final.error = initState.error) ∧
    ((fetchLanguages initState "octocat" .absent).final.languages = none ∧
     (fetchLanguages initState "octocat" .absent).ret = none ∧
     (fetchLanguages initState "octocat" .absent).final.error = initState.error ∧
     (fetchLanguages initState "octocat" (.exn "boom")).final.languages = none ∧
     (fetchLanguages initState "octocat" (.exn "boom")).ret = none ∧
     (fetchLanguages initState "octocat" (.exn "boom")).final.error = initState.error) ∧
    ((loadUserData initState "octocat" oneAbsentOutcomes).final.repositories =
       secondaryList oneAbsentOutcomes.repositories ∧
     (loadUserData initState "octocat" oneAbsentOutcomes).final.languages =
       secondaryOpt oneAbsentOutcomes.languages ∧
     (loadUserData initState "octocat" oneAbsentOutcomes).final.activityData =
       secondaryOpt oneAbsentOutcomes.activity ∧
     (loadUserData initState "octocat" oneAbsentOutcomes).final.repoInsights =
       secondaryOpt oneAbsentOutcomes.insights ∧
     (loadUserData initState "octocat" oneAbsentOutcomes).final.languageTrends =
       secondaryOpt oneAbsentOutcomes.trends ∧
     (loadUserData initState "octocat" oneAbsentOutcomes).final.contributionData =
       secondaryOpt oneAbsentOutcomes.contributions ∧
     (loadUserData initState "octocat" oneAbsentOutcomes).final.error = none) :=
  have h := C5_secondary_failure_isolation initState "octocat" oneAbsentOutcomes
    "profile" (by decide) rfl rfl
  ⟨h.1 initState "boom", h.2.2.1 initState "boom",
    h.2.2.2.2.2.2.2.2.2.2.2.2⟩

end GitInsights
